import Mathlib

/-!
Shallow embedding of the ddf-common raster and hypothesis-testing core
(`raster.py`, `hypothesis.py`).

Conventions of the embedding:
- Python floats are modelled as rationals (`ℚ`); float NaN is modelled by
  `Option ℚ` (`none` = NaN) at the single place it can arise, the p-value
  returned by `scipy.stats.ttest_ind_from_stats`, which is modelled as an
  abstract function parameter `TTest` (the `sqrt` applied to the variances
  before the scipy call is absorbed into that abstract function).
- Python `int(q)` truncates toward zero; `pyInt` reproduces this.
- Raised exceptions are modelled by `Except PipelineError`; the spec's error
  taxonomy maps `ValueError("Coordinates out of bounds")` to `outOfBounds`,
  `ValueError("Coordinates are masked")` to `maskedValue`, the band-count
  `ValueError` and band-index `IndexError` of `load_raster` to `formatError`,
  and the `ValueError` of `sample_ttest` to `insufficientSamples`.
-/

deriving instance DecidableEq for Except

namespace DDF

/-- The spec's error taxonomy for the core (§7 of the design). -/
inductive PipelineError where
  | outOfBounds
  | maskedValue
  | formatError
  | insufficientSamples
deriving DecidableEq, Repr

/-- `Bounds` dataclass of `raster.py`: geographic extent, signed pixel sizes
and raster dimensions.  Raster sizes are integers in every construction site
(`get_extent` passes `RasterXSize`/`RasterYSize`). -/
structure Bounds where
  minx : ℚ
  maxx : ℚ
  miny : ℚ
  maxy : ℚ
  pixel_size_x : ℚ
  pixel_size_y : ℚ
  raster_size_x : ℤ
  raster_size_y : ℤ
deriving DecidableEq, Repr

/-- Python `int(q)`: truncation toward zero. -/
def pyInt (q : ℚ) : ℤ := if q < 0 then ⌈q⌉ else ⌊q⌋

/-- `coords_to_indices(bounds, x, y)` of `raster.py`:
raises out-of-bounds when `x ∉ [minx, maxx]` or `y ∉ [miny, maxy]`, otherwise
`x_idx = raster_size_y - ceil((y - miny) / |pixel_size_y|)` (the row) and
`y_idx = int((x - minx) / |pixel_size_x|)` (the column, Python `int`
truncation). -/
def coords_to_indices (bounds : Bounds) (x y : ℚ) : Except PipelineError (ℤ × ℤ) :=
  if x < bounds.minx ∨ x > bounds.maxx ∨ y < bounds.miny ∨ y > bounds.maxy then
    .error .outOfBounds
  else
    .ok (bounds.raster_size_y - ⌈(y - bounds.miny) / |bounds.pixel_size_y|⌉,
         pyInt ((x - bounds.minx) / |bounds.pixel_size_x|))

/-- `AmazonGeoTiff` of `raster.py`, reduced to what the queried quantities
depend on: the geotransform data (origin, pixel sizes, raster sizes, as read
by `get_extent`) and the per-cell per-band value and mask arrays built by
`load_raster` (12 band slots; `mask ≠ 0` means valid).  Arrays are modelled
as total functions on indices. -/
structure AmazonGeoTiff where
  minx : ℚ
  maxy : ℚ
  pixel_size_x : ℚ
  pixel_size_y : ℚ
  raster_size_x : ℤ
  raster_size_y : ℤ
  image : ℤ → ℤ → ℕ → ℚ
  mask : ℤ → ℤ → ℕ → ℕ

/-- `get_extent` of `raster.py`: bounds derived from the geotransform;
`maxx`/`miny` follow from origin, pixel sizes and raster sizes. -/
def get_extent (g : AmazonGeoTiff) : Bounds :=
  { minx := g.minx
    maxx := g.minx + g.pixel_size_x * g.raster_size_x
    miny := g.maxy + g.pixel_size_y * g.raster_size_y
    maxy := g.maxy
    pixel_size_x := g.pixel_size_x
    pixel_size_y := g.pixel_size_y
    raster_size_x := g.raster_size_x
    raster_size_y := g.raster_size_y }

/-- One entry of `masked_image = np.ma.masked_where(mask == 0, image)`:
`none` when the mask entry is zero. -/
def masked_image (g : AmazonGeoTiff) (r c : ℤ) (band : ℕ) : Option ℚ :=
  if g.mask r c band = 0 then none else some (g.image r c band)

/-- The list of valid band indices of a cell (out of the 12 band slots
`load_raster` fills). -/
def validBands (g : AmazonGeoTiff) (r c : ℤ) : List ℕ :=
  (List.range 12).filter (fun b => decide (g.mask r c b ≠ 0))

/-- One entry of `yearly_masked_image = masked_image.mean(axis=2)` of
`load_raster`: the mean of the valid band values of the cell, masked
(`none`) when no band is valid. -/
def yearly_masked_image (g : AmazonGeoTiff) (r c : ℤ) : Option ℚ :=
  let vb := validBands g r c
  if vb = [] then none
  else some ((vb.map (fun b => g.image r c b)).sum / (vb.length : ℚ))

/-- The band-count / band-index validation of `load_raster` of `raster.py`
(`path` and pixel data play no role in it).  Input: the file's `RasterCount`
and the caller's `use_only_band_index` argument (default `-1` = all bands).
Result: `none` when all 12 bands are read, `some i` when band `i` is
replicated into all 12 slots.  The band-count `ValueError` and the
band-index `IndexError` are both `formatError` in the spec's taxonomy. -/
def effectiveBandIndex (rasterCount use_only_band_index : ℤ) : ℤ :=
  -- after the count check, `use_only_band_index` is rebound to 0 when the
  -- file is single-band; `is_single_band` then means this value is ≠ -1
  if use_only_band_index = -1 ∧ rasterCount = 1 then 0 else use_only_band_index

def load_raster (rasterCount : ℤ) (use_only_band_index : ℤ) :
    Except PipelineError (Option ℤ) :=
  if use_only_band_index = -1 ∧ rasterCount ≠ 12 ∧ rasterCount ≠ 1 then
    .error .formatError
  else if effectiveBandIndex rasterCount use_only_band_index ≠ -1 ∧
      effectiveBandIndex rasterCount use_only_band_index ≥ rasterCount then
    .error .formatError
  else .ok (if effectiveBandIndex rasterCount use_only_band_index = -1 then none
            else some (effectiveBandIndex rasterCount use_only_band_index))

/-- `get_data_at_coords(dataset_tif, x, y, month)` of `raster.py`: resolve
the cell through `get_extent` + `coords_to_indices`, read the yearly
aggregate when `month = -1` and band `month` otherwise, and raise the
masked-value error when the read entry is masked. -/
def get_data_at_coords (g : AmazonGeoTiff) (x y : ℚ) (month : ℤ) :
    Except PipelineError ℚ :=
  match coords_to_indices (get_extent g) x y with
  | .error e => .error e
  | .ok rc =>
    match (if month = -1 then yearly_masked_image g rc.1 rc.2
           else masked_image g rc.1 rc.2 month.toNat) with
    | none => .error .maskedValue
    | some v => .ok v

/-! ## hypothesis.py -/

/-- Abstract model of `scipy.stats.ttest_ind_from_stats(mean1, std1, nobs1,
mean2, std2, nobs2, equal_var=False, alternative="two-sided")`: a function of
(mean1, variance1, nobs1, mean2, variance2, nobs2) to the p-value, `none`
standing for a NaN p-value.  Taking variances instead of standard deviations
absorbs the `math.sqrt` applied at the call site; the function is otherwise
opaque to the claims. -/
def TTest : Type := ℚ → ℚ → ℕ → ℚ → ℚ → ℕ → Option ℚ

/-- `HypothesisTest` dataclass of `hypothesis.py`.  `p_value` is `Option ℚ`
because the scipy p-value can be NaN; `p_value_threshold` is `Option ℚ`
because `get_predictions` passes `p_value_target=None`. -/
structure HypothesisTest where
  longitude : ℚ
  latitude : ℚ
  p_value : Option ℚ
  p_value_threshold : Option ℚ
deriving DecidableEq, Repr

/-- `np.mean` of a list of rationals. -/
def npMean (l : List ℚ) : ℚ := l.sum / (l.length : ℚ)

/-- `np.var` (default `ddof=0`): mean of squared deviations from the mean. -/
def npVar (l : List ℚ) : ℚ := npMean (l.map (fun x => (x - npMean l) ^ 2))

/-- `sample_ttest` of `hypothesis.py`: raises `insufficientSamples` when
fewer than two isotope values are given; otherwise computes
`isotope_mean = np.mean(values)`,
`isotope_variance = np.var(values) * (len / (len - 1))`, queries both
isoscapes at `(longitude, latitude)` with `month = 0`, feeds the two stat
triples to the t-test and returns the `HypothesisTest` carrying the
untouched `p_value_target`. -/
def sample_ttest (T : TTest) (longitude latitude : ℚ) (isotope_values : List ℚ)
    (means_isoscape variances_isoscape : AmazonGeoTiff)
    (sample_size_per_location : ℕ) (p_value_target : Option ℚ) :
    Except PipelineError HypothesisTest :=
  if isotope_values.length ≤ 1 then .error .insufficientSamples
  else
    let isotope_mean := npMean isotope_values
    let isotope_variance := npVar isotope_values *
      ((isotope_values.length : ℚ) / ((isotope_values.length : ℚ) - 1))
    let isotope_sample_count := isotope_values.length
    match get_data_at_coords means_isoscape longitude latitude 0 with
    | .error e => .error e
    | .ok predicted_isotope_mean =>
      match get_data_at_coords variances_isoscape longitude latitude 0 with
      | .error e => .error e
      | .ok predicted_isotope_variance =>
        .ok { longitude := longitude
              latitude := latitude
              p_value := T predicted_isotope_mean predicted_isotope_variance
                           sample_size_per_location
                           isotope_mean isotope_variance isotope_sample_count
              p_value_threshold := p_value_target }

/-- One row of the `sample_data` DataFrame consumed by `get_predictions`:
tree code, longitude, latitude, fraud label, and one value per isotope
column (columns indexed by `ℕ`, modelled as a total function). -/
structure SampleRow where
  code : ℕ
  long : ℚ
  lat : ℚ
  fraud : ℚ
  isotopes : ℕ → ℚ

/-- The `groupby` key of `get_predictions`:
`(Code, long, lat, fraud)` in column order. -/
structure GroupKey where
  code : ℕ
  long : ℚ
  lat : ℚ
  fraud : ℚ
deriving DecidableEq, Repr

/-- The group key of a sample row. -/
def rowKey (r : SampleRow) : GroupKey := ⟨r.code, r.long, r.lat, r.fraud⟩

/-- The distinct group keys of the dataset (`groupby` iterates each key
once; the iteration order is irrelevant to the claims). -/
def groupKeys (rows : List SampleRow) : List GroupKey := (rows.map rowKey).dedup

/-- The rows of one group. -/
def groupRows (rows : List SampleRow) (k : GroupKey) : List SampleRow :=
  rows.filter (fun r => decide (rowKey r = k))

/-- One output row of `get_predictions`.  Field names follow the source's
output columns: the source writes `group_key[1]` (the longitude) into the
`"lat"` column and `group_key[2]` (the latitude) into the `"long"` column. -/
structure PredRow where
  code : ℕ
  lat : ℚ
  long : ℚ
  fraud : ℚ
  predicted_fraud : ℚ
deriving DecidableEq, Repr

/-- The per-channel p-values of one retained group: one `sample_ttest` per
isotope column, against the column's mean and variance isoscapes
(`means_isoscapes[i]`, `variances_isoscapes[i]`), with
`p_value_target=None`.  A raised raster error propagates. -/
def channelPvaluesAux (T : TTest) (k : GroupKey) (g : List SampleRow)
    (means_isoscapes variances_isoscapes : ℕ → AmazonGeoTiff)
    (sample_size_per_location : ℕ) :
    List (ℕ × ℕ) → Except PipelineError (List (Option ℚ))
  | [] => .ok []
  | ic :: rest =>
    match sample_ttest T k.long k.lat (g.map (fun r => r.isotopes ic.2))
        (means_isoscapes ic.1) (variances_isoscapes ic.1)
        sample_size_per_location none with
    | .error e => .error e
    | .ok hypothesis_test =>
      match channelPvaluesAux T k g means_isoscapes variances_isoscapes
          sample_size_per_location rest with
      | .error e => .error e
      | .ok p_values => .ok (hypothesis_test.p_value :: p_values)

def channelPvalues (T : TTest) (k : GroupKey) (g : List SampleRow)
    (isotope_column_names : List ℕ)
    (means_isoscapes variances_isoscapes : ℕ → AmazonGeoTiff)
    (sample_size_per_location : ℕ) : Except PipelineError (List (Option ℚ)) :=
  channelPvaluesAux T k g means_isoscapes variances_isoscapes
    sample_size_per_location isotope_column_names.enum

/-- `np.array(p_values).prod()` over possibly-NaN factors: NaN (`none`)
whenever any factor is NaN, the rational product otherwise (the empty
product is 1). -/
def listProd (ps : List (Option ℚ)) : Option ℚ :=
  ps.foldl (fun acc p => match acc, p with
    | some a, some b => some (a * b)
    | _, _ => none) (some 1)

/-- The body of the `for group_key, isotope_values in sample_data` loop of
`get_predictions`: `none` when the group is skipped (fewer than 2 rows, or
NaN combined p-value), the appended row otherwise.  The appended row puts
`group_key[1]` (longitude) in `lat` and `group_key[2]` (latitude) in
`long`, as the source does. -/
def predictGroup (T : TTest) (rows : List SampleRow)
    (isotope_column_names : List ℕ)
    (means_isoscapes variances_isoscapes : ℕ → AmazonGeoTiff)
    (sample_size_per_location : ℕ) (k : GroupKey) :
    Except PipelineError (Option PredRow) :=
  if (groupRows rows k).length ≤ 1 then .ok none
  else
    match channelPvalues T k (groupRows rows k) isotope_column_names
        means_isoscapes variances_isoscapes sample_size_per_location with
    | .error e => .error e
    | .ok p_values =>
      match listProd p_values with
      | none => .ok none
      | some combined_p_value =>
          .ok (some { code := k.code
                      lat := k.long
                      long := k.lat
                      fraud := k.fraud
                      predicted_fraud := combined_p_value })

/-- The group loop of `get_predictions`: visit each group key in order,
skip the groups `predictGroup` skips, append the rows it emits; an
exception raised inside a group propagates out of the whole loop. -/
def predictLoop (T : TTest) (rows : List SampleRow)
    (isotope_column_names : List ℕ)
    (means_isoscapes variances_isoscapes : ℕ → AmazonGeoTiff)
    (sample_size_per_location : ℕ) :
    List GroupKey → Except PipelineError (List PredRow)
  | [] => .ok []
  | k :: ks =>
    match predictGroup T rows isotope_column_names means_isoscapes
        variances_isoscapes sample_size_per_location k with
    | .error e => .error e
    | .ok o =>
      match predictLoop T rows isotope_column_names means_isoscapes
          variances_isoscapes sample_size_per_location ks with
      | .error e => .error e
      | .ok rest => .ok (o.toList ++ rest)

/-- `get_predictions` of `hypothesis.py`: iterate the groups, skip the
small and NaN-scored ones, concatenate the emitted rows. -/
def get_predictions (T : TTest) (rows : List SampleRow)
    (isotope_column_names : List ℕ)
    (means_isoscapes variances_isoscapes : ℕ → AmazonGeoTiff)
    (sample_size_per_location : ℕ) : Except PipelineError (List PredRow) :=
  predictLoop T rows isotope_column_names means_isoscapes variances_isoscapes
    sample_size_per_location (groupKeys rows)

/-- `FraudMetrics` dataclass of `hypothesis.py`. -/
structure FraudMetrics where
  isotope_column_names : List ℕ
  accuracy : ℚ
  precision : ℚ
  «recall» : ℚ

/-- Abstract model of `sklearn.metrics.precision_recall_curve` followed by
`np.where(thresholds == p_value_target)` indexing: a function of the
(true label, score) pairs and the target to the reported
(precision, recall). -/
def PRCurve : Type := List (ℚ × ℚ) → ℚ → ℚ × ℚ

/-- The accuracy computed by `fraud_metrics`: the fraction of prediction
rows whose `fraud` column equals (exactly) their `predicted_fraud` column. -/
def fraud_accuracy (predictions : List PredRow) : ℚ :=
  ((predictions.filter (fun r => decide (r.fraud = r.predicted_fraud))).length : ℚ) /
    (predictions.length : ℚ)

/-- `fraud_metrics` of `hypothesis.py`: run `get_predictions`, look up
precision/recall at the caller's threshold on the precision-recall curve
(abstracted as `curve`), and compute the exact-equality accuracy. -/
def fraud_metrics (curve : PRCurve) (T : TTest) (rows : List SampleRow)
    (isotope_column_names : List ℕ)
    (means_isoscapes variances_isoscapes : ℕ → AmazonGeoTiff)
    (sample_size_per_location : ℕ) (p_value_target : ℚ) :
    Except PipelineError FraudMetrics :=
  match get_predictions T rows isotope_column_names
      means_isoscapes variances_isoscapes sample_size_per_location with
  | .error e => .error e
  | .ok predictions =>
    .ok { isotope_column_names := isotope_column_names
          accuracy := fraud_accuracy predictions
          precision := (curve (predictions.map (fun r => (r.fraud, r.predicted_fraud)))
            p_value_target).1
          «recall» := (curve (predictions.map (fun r => (r.fraud, r.predicted_fraud)))
            p_value_target).2 }

/-! ## Basic lemmas on the coordinate indexer -/

/-- Python `int` truncation agrees with the floor on nonnegative inputs. -/
theorem pyInt_eq_floor {q : ℚ} (h : 0 ≤ q) : pyInt q = ⌊q⌋ := by
  unfold pyInt
  exact if_neg (not_lt.2 h)

/-- `coords_to_indices` raises out-of-bounds exactly outside the extent. -/
theorem coords_to_indices_out_iff (b : Bounds) (lon lat : ℚ) :
    coords_to_indices b lon lat = .error .outOfBounds ↔
      (lon < b.minx ∨ lon > b.maxx ∨ lat < b.miny ∨ lat > b.maxy) := by
  unfold coords_to_indices
  split
  · simp only [true_iff]
    assumption
  · simp only [reduceCtorEq, false_iff]
    assumption

/-- On an in-extent coordinate, `coords_to_indices` returns the
ceiling-on-row / floor-on-column pair. -/
theorem coords_to_indices_in (b : Bounds) (lon lat : ℚ)
    (h1 : b.minx ≤ lon) (h2 : lon ≤ b.maxx) (h3 : b.miny ≤ lat)
    (h4 : lat ≤ b.maxy) :
    coords_to_indices b lon lat =
      .ok (b.raster_size_y - ⌈(lat - b.miny) / |b.pixel_size_y|⌉,
           ⌊(lon - b.minx) / |b.pixel_size_x|⌋) := by
  have hcond : ¬(lon < b.minx ∨ lon > b.maxx ∨ lat < b.miny ∨ lat > b.maxy) := by
    push_neg
    exact ⟨h1, h2, h3, h4⟩
  unfold coords_to_indices
  rw [if_neg hcond, pyInt_eq_floor (div_nonneg (by linarith) (abs_nonneg _))]

/-- The worked example of the spec:
`Bounds(50, 100, 50, 100, 1, 1, 50, 50)`, query `(55, 55)`. -/
theorem coords_to_indices_example :
    coords_to_indices ⟨50, 100, 50, 100, 1, 1, 50, 50⟩ 55 55 = .ok (45, 5) := by
  rw [coords_to_indices_in ⟨50, 100, 50, 100, 1, 1, 50, 50⟩ 55 55
    (by norm_num) (by norm_num) (by norm_num) (by norm_num)]
  have hc : (⌈((55 : ℚ) - 50) / |(1 : ℚ)|⌉ : ℤ) = 5 := by
    simp only [abs_one]
    rw [Int.ceil_eq_iff]
    norm_num
  have hf : (⌊((55 : ℚ) - 50) / |(1 : ℚ)|⌋ : ℤ) = 5 := by
    simp only [abs_one]
    rw [Int.floor_eq_iff]
    norm_num
  rw [show (⟨50, 100, 50, 100, 1, 1, 50, 50⟩ : Bounds).raster_size_y = 50 from rfl,
    show (⟨50, 100, 50, 100, 1, 1, 50, 50⟩ : Bounds).miny = 50 from rfl,
    show (⟨50, 100, 50, 100, 1, 1, 50, 50⟩ : Bounds).minx = 50 from rfl,
    show (⟨50, 100, 50, 100, 1, 1, 50, 50⟩ : Bounds).pixel_size_y = 1 from rfl,
    show (⟨50, 100, 50, 100, 1, 1, 50, 50⟩ : Bounds).pixel_size_x = 1 from rfl,
    hc, hf]
  norm_num

/-! ## Claim theorems: coordinate indexing -/

/-- C1: `coords_to_indices` fails with OutOfBounds exactly when the
longitude is outside `[minx, maxx]` or the latitude is outside
`[miny, maxy]` (never clamping); otherwise it returns
`row = raster_size_y - ⌈(lat - miny) / |pixel_size_y|⌉` and
`column = ⌊(lon - minx) / |pixel_size_x|⌋`; on
`Bounds(50, 100, 50, 100, 1, 1, 50, 50)` the coordinate `(55, 55)`
resolves to row 45, column 5. -/
theorem coords_to_indices_correct (b : Bounds) (lon lat : ℚ) :
    (coords_to_indices b lon lat = .error .outOfBounds ↔
      (lon < b.minx ∨ lon > b.maxx ∨ lat < b.miny ∨ lat > b.maxy))
    ∧ (b.minx ≤ lon → lon ≤ b.maxx → b.miny ≤ lat → lat ≤ b.maxy →
        coords_to_indices b lon lat =
          .ok (b.raster_size_y - ⌈(lat - b.miny) / |b.pixel_size_y|⌉,
               ⌊(lon - b.minx) / |b.pixel_size_x|⌋))
    ∧ coords_to_indices ⟨50, 100, 50, 100, 1, 1, 50, 50⟩ 55 55 = .ok (45, 5) :=
  ⟨coords_to_indices_out_iff b lon lat,
   coords_to_indices_in b lon lat,
   coords_to_indices_example⟩

/-- Witness for C1 at `Bounds(50, 100, 50, 100, 1, 1, 50, 50)`, `(55, 55)`. -/
theorem coords_to_indices_correct_witness :
    coords_to_indices ⟨50, 100, 50, 100, 1, 1, 50, 50⟩ 55 55 =
      .ok ((50 : ℤ) - ⌈((55 : ℚ) - 50) / |(1 : ℚ)|⌉,
           ⌊((55 : ℚ) - 50) / |(1 : ℚ)|⌋) :=
  (coords_to_indices_correct ⟨50, 100, 50, 100, 1, 1, 50, 50⟩ 55 55).2.1
    (by norm_num) (by norm_num) (by norm_num) (by norm_num)

/-! ## Claim theorems: raster loading -/

/-- The band validation of `load_raster` raises exactly on the two spec
conditions. -/
theorem load_raster_error_iff (rasterCount use_only_band_index : ℤ) :
    load_raster rasterCount use_only_band_index = .error .formatError ↔
      ((use_only_band_index = -1 ∧ rasterCount ≠ 12 ∧ rasterCount ≠ 1) ∨
       (use_only_band_index ≠ -1 ∧ use_only_band_index ≥ rasterCount)) := by
  unfold load_raster effectiveBandIndex
  by_cases h1 : use_only_band_index = -1 ∧ rasterCount ≠ 12 ∧ rasterCount ≠ 1
  · simp only [if_pos h1, true_iff]
    exact Or.inl h1
  · rw [if_neg h1]
    by_cases h2 : use_only_band_index = -1
    · subst h2
      rcases Decidable.em (rasterCount = 1) with hc1 | hc1
      · subst hc1
        norm_num
        simp
      · have hc12 : rasterCount = 12 := by
          by_contra hc12
          exact h1 ⟨rfl, hc12, hc1⟩
        subst hc12
        norm_num
        simp
    · have hj : (if use_only_band_index = -1 ∧ rasterCount = 1 then (0 : ℤ)
          else use_only_band_index) = use_only_band_index :=
        if_neg (fun hh => h2 hh.1)
      rw [hj]
      by_cases h3 : use_only_band_index ≥ rasterCount
      · simp only [if_pos (⟨h2, h3⟩ : use_only_band_index ≠ -1 ∧
          use_only_band_index ≥ rasterCount), true_iff]
        exact Or.inr ⟨h2, h3⟩
      · rw [if_neg (fun hh : use_only_band_index ≠ -1 ∧
          use_only_band_index ≥ rasterCount => h3 hh.2)]
        simp only [reduceCtorEq, false_iff, not_or]
        exact ⟨fun hh => h2 hh.1, fun hh => h3 hh.2⟩

/-- Every failure of the band validation of `load_raster` is the
FormatError. -/
theorem load_raster_error_is_format (rasterCount use_only_band_index : ℤ)
    (e : PipelineError)
    (h : load_raster rasterCount use_only_band_index = .error e) :
    e = .formatError := by
  unfold load_raster at h
  by_cases h1 : use_only_band_index = -1 ∧ rasterCount ≠ 12 ∧ rasterCount ≠ 1
  · rw [if_pos h1] at h
    cases h
    rfl
  · rw [if_neg h1] at h
    by_cases h2 : effectiveBandIndex rasterCount use_only_band_index ≠ -1 ∧
        effectiveBandIndex rasterCount use_only_band_index ≥ rasterCount
    · rw [if_pos h2] at h
      cases h
      rfl
    · rw [if_neg h2] at h
      cases h

/-- C6: the band validation of `load_raster` fails with FormatError exactly
when either no explicit band was requested (`use_only_band_index = -1`) and
the file's band count is neither 12 nor 1, or an explicit band index was
requested that is at least the band count; in every other case the load
proceeds (returns a band selection). -/
theorem load_raster_format_error (rasterCount use_only_band_index : ℤ) :
    (load_raster rasterCount use_only_band_index = .error .formatError ↔
      ((use_only_band_index = -1 ∧ rasterCount ≠ 12 ∧ rasterCount ≠ 1) ∨
       (use_only_band_index ≠ -1 ∧ use_only_band_index ≥ rasterCount)))
    ∧ (¬((use_only_band_index = -1 ∧ rasterCount ≠ 12 ∧ rasterCount ≠ 1) ∨
         (use_only_band_index ≠ -1 ∧ use_only_band_index ≥ rasterCount)) →
        ∃ sel, load_raster rasterCount use_only_band_index = .ok sel) := by
  refine ⟨load_raster_error_iff rasterCount use_only_band_index, fun hn => ?_⟩
  rcases hne : load_raster rasterCount use_only_band_index with e | sel
  · exact absurd ((load_raster_error_iff rasterCount use_only_band_index).mp
      (load_raster_error_is_format rasterCount use_only_band_index e hne ▸ hne)) hn
  · exact ⟨sel, rfl⟩

/-- Witness for C6: a 12-band file with no explicit band loads; a 5-band
file with no explicit band is a FormatError. -/
theorem load_raster_format_error_witness :
    (∃ sel, load_raster 12 (-1) = .ok sel) ∧
      load_raster 5 (-1) = .error .formatError :=
  ⟨(load_raster_format_error 12 (-1)).2 (by decide),
   (load_raster_format_error 5 (-1)).1.mpr (by decide)⟩

/-- C9: for every well-formed Bounds (extent derived from origin, pixel
sizes and raster sizes, pixel width positive, pixel height negative) and
every coordinate strictly inside the extent, `coords_to_indices` returns a
(row, column) with `0 ≤ row < raster_size_y` and
`0 ≤ column < raster_size_x`. -/
theorem coords_to_indices_in_range (b : Bounds) (lon lat : ℚ)
    (hx : b.maxx = b.minx + b.pixel_size_x * (b.raster_size_x : ℚ))
    (hy : b.miny = b.maxy + b.pixel_size_y * (b.raster_size_y : ℚ))
    (hpx : 0 < b.pixel_size_x) (hpy : b.pixel_size_y < 0)
    (h1 : b.minx < lon) (h2 : lon < b.maxx)
    (h3 : b.miny < lat) (h4 : lat < b.maxy) :
    ∃ r c, coords_to_indices b lon lat = .ok (r, c) ∧
      0 ≤ r ∧ r < b.raster_size_y ∧ 0 ≤ c ∧ c < b.raster_size_x := by
  have habs_x : |b.pixel_size_x| = b.pixel_size_x := abs_of_pos hpx
  have habs_y : |b.pixel_size_y| = -b.pixel_size_y := abs_of_neg hpy
  have hnpy : (0 : ℚ) < -b.pixel_size_y := by linarith
  refine ⟨_, _, coords_to_indices_in b lon lat h1.le h2.le h3.le h4.le,
    ?_, ?_, ?_, ?_⟩
  · -- 0 ≤ row: the ceiling is at most raster_size_y
    have hq : (lat - b.miny) / |b.pixel_size_y| ≤ (b.raster_size_y : ℚ) := by
      rw [habs_y, div_le_iff₀ hnpy]
      nlinarith [hy]
    have := Int.ceil_le.mpr hq
    omega
  · -- row < raster_size_y: the ceiling is positive
    have hq : (0 : ℚ) < (lat - b.miny) / |b.pixel_size_y| := by
      rw [habs_y]
      exact div_pos (by linarith) hnpy
    have := Int.ceil_pos.mpr hq
    omega
  · -- 0 ≤ column
    exact Int.le_floor.mpr (by
      rw [Int.cast_zero]
      exact div_nonneg (by linarith) (abs_nonneg _))
  · -- column < raster_size_x
    refine Int.floor_lt.mpr ?_
    rw [habs_x, div_lt_iff₀ hpx]
    nlinarith [hx]

/-- Witness for C9: `Bounds(50, 100, 50, 100, 1, -1, 50, 50)` with the
strictly interior coordinate `(55, 55)`. -/
theorem coords_to_indices_in_range_witness :
    ∃ r c, coords_to_indices ⟨50, 100, 50, 100, 1, -1, 50, 50⟩ 55 55 = .ok (r, c) ∧
      0 ≤ r ∧ r < 50 ∧ 0 ≤ c ∧ c < 50 :=
  coords_to_indices_in_range ⟨50, 100, 50, 100, 1, -1, 50, 50⟩ 55 55
    (by norm_num) (by norm_num) (by norm_num) (by norm_num)
    (by norm_num) (by norm_num) (by norm_num) (by norm_num)

/-- C10: boundary coordinates the bounds check accepts can map one past the
grid: with `lat = miny` the query is accepted and the row is exactly
`raster_size_y` (one past the last valid row index `raster_size_y - 1`),
and with `lon = maxx` (under the derived-extent invariant with positive
pixel width) the query is accepted and the column is exactly
`raster_size_x` (one past the last valid column index). -/
theorem coords_to_indices_boundary_overflow (b : Bounds) (lon lat : ℚ)
    (hx : b.maxx = b.minx + b.pixel_size_x * (b.raster_size_x : ℚ))
    (hpx : 0 < b.pixel_size_x) (hrx : 0 ≤ b.raster_size_x)
    (hminmax : b.miny ≤ b.maxy)
    (hlon1 : b.minx ≤ lon) (hlon2 : lon ≤ b.maxx)
    (hlat1 : b.miny ≤ lat) (hlat2 : lat ≤ b.maxy) :
    (∃ c, coords_to_indices b lon b.miny = .ok (b.raster_size_y, c)) ∧
    (∃ r, coords_to_indices b b.maxx lat = .ok (r, b.raster_size_x)) := by
  constructor
  · have heq := coords_to_indices_in b lon b.miny hlon1 hlon2 le_rfl hminmax
    rw [sub_self, zero_div, Int.ceil_zero, sub_zero] at heq
    exact ⟨_, heq⟩
  · have hrx' : (0 : ℚ) ≤ (b.raster_size_x : ℚ) := by
      exact_mod_cast hrx
    have hminx_maxx : b.minx ≤ b.maxx := by
      nlinarith [mul_nonneg hpx.le hrx']
    have heq := coords_to_indices_in b b.maxx lat hminx_maxx le_rfl hlat1 hlat2
    have hq : (b.maxx - b.minx) / |b.pixel_size_x| = (b.raster_size_x : ℚ) := by
      rw [abs_of_pos hpx, hx]
      field_simp
    rw [hq, Int.floor_intCast] at heq
    exact ⟨_, heq⟩

/-- Witness for C10 at `Bounds(50, 100, 50, 100, 1, -1, 50, 50)`:
`(55, miny)` is accepted with row 50, `(maxx, 55)` is accepted with
column 50. -/
theorem coords_to_indices_boundary_overflow_witness :
    (∃ c, coords_to_indices ⟨50, 100, 50, 100, 1, -1, 50, 50⟩ 55 50 =
      .ok (50, c)) ∧
    (∃ r, coords_to_indices ⟨50, 100, 50, 100, 1, -1, 50, 50⟩ 100 55 =
      .ok (r, 50)) :=
  coords_to_indices_boundary_overflow ⟨50, 100, 50, 100, 1, -1, 50, 50⟩ 55 55
    (by norm_num) (by norm_num) (by norm_num) (by norm_num)
    (by norm_num) (by norm_num) (by norm_num) (by norm_num)

/-! ## Error-shape lemmas -/

/-- The only exception `coords_to_indices` raises is OutOfBounds. -/
theorem coords_to_indices_error_shape (b : Bounds) (x y : ℚ) (e : PipelineError)
    (h : coords_to_indices b x y = .error e) : e = .outOfBounds := by
  unfold coords_to_indices at h
  split at h
  · cases h
    rfl
  · cases h

/-- The only exceptions `get_data_at_coords` raises are OutOfBounds and
MaskedValueError. -/
theorem get_data_at_coords_error_shape (g : AmazonGeoTiff) (x y : ℚ) (month : ℤ)
    (e : PipelineError) (h : get_data_at_coords g x y month = .error e) :
    e = .outOfBounds ∨ e = .maskedValue := by
  unfold get_data_at_coords at h
  rcases hc : coords_to_indices (get_extent g) x y with e' | rc
  · rw [hc] at h
    injection h with he
    exact Or.inl (he ▸ coords_to_indices_error_shape _ x y e' hc)
  · rw [hc] at h
    dsimp only at h
    rcases hval : (if month = -1 then yearly_masked_image g rc.1 rc.2
        else masked_image g rc.1 rc.2 month.toNat) with _ | v
    · rw [hval] at h
      injection h with he
      exact Or.inr he.symm
    · rw [hval] at h
      cases h

/-! ## Claim theorems: the hypothesis tester -/

/-- `sample_ttest` raises InsufficientSamples exactly on short inputs. -/
theorem sample_ttest_insufficient_iff (T : TTest) (longitude latitude : ℚ)
    (isotope_values : List ℚ)
    (means_isoscape variances_isoscape : AmazonGeoTiff)
    (n₀ : ℕ) (t : Option ℚ) :
    sample_ttest T longitude latitude isotope_values means_isoscape
        variances_isoscape n₀ t = .error .insufficientSamples ↔
      isotope_values.length < 2 := by
  constructor
  · intro h
    by_contra hlen
    push_neg at hlen
    unfold sample_ttest at h
    rw [if_neg (by omega)] at h
    rcases hm : get_data_at_coords means_isoscape longitude latitude 0 with e | pm
    · rw [hm] at h
      injection h with he
      rcases get_data_at_coords_error_shape _ _ _ _ _ hm with h' | h' <;>
        simp [h'] at he
    · rw [hm] at h
      dsimp only at h
      rcases hv : get_data_at_coords variances_isoscape longitude latitude 0 with e | pv
      · rw [hv] at h
        injection h with he
        rcases get_data_at_coords_error_shape _ _ _ _ _ hv with h' | h' <;>
          simp [h'] at he
      · rw [hv] at h
        cases h
  · intro h
    unfold sample_ttest
    rw [if_pos (by omega)]

/-- On a successfully queried location, `sample_ttest` with at least two
values returns the t-test of the queried statistics against the empirical
mean and variance. -/
theorem sample_ttest_ok (T : TTest) (longitude latitude : ℚ)
    (isotope_values : List ℚ)
    (means_isoscape variances_isoscape : AmazonGeoTiff)
    (n₀ : ℕ) (t : Option ℚ) (pm pv : ℚ)
    (hlen : 2 ≤ isotope_values.length)
    (hm : get_data_at_coords means_isoscape longitude latitude 0 = .ok pm)
    (hv : get_data_at_coords variances_isoscape longitude latitude 0 = .ok pv) :
    sample_ttest T longitude latitude isotope_values means_isoscape
        variances_isoscape n₀ t =
      .ok { longitude := longitude
            latitude := latitude
            p_value := T pm pv n₀ (npMean isotope_values)
              (npVar isotope_values * ((isotope_values.length : ℚ) /
                ((isotope_values.length : ℚ) - 1)))
              isotope_values.length
            p_value_threshold := t } := by
  unfold sample_ttest
  rw [if_neg (by omega), hm, hv]

/-- The variance `sample_ttest` computes is the Bessel-corrected sample
variance: sum of squared deviations over `n - 1`. -/
theorem sample_ttest_variance_bessel (isotope_values : List ℚ)
    (hlen : 2 ≤ isotope_values.length) :
    npVar isotope_values * ((isotope_values.length : ℚ) /
        ((isotope_values.length : ℚ) - 1)) =
      (isotope_values.map (fun x => (x - npMean isotope_values) ^ 2)).sum /
        ((isotope_values.length : ℚ) - 1) := by
  have hn : (isotope_values.length : ℚ) ≠ 0 := by
    have : (2 : ℚ) ≤ (isotope_values.length : ℚ) := by exact_mod_cast hlen
    linarith
  have hn1 : (isotope_values.length : ℚ) - 1 ≠ 0 := by
    have : (2 : ℚ) ≤ (isotope_values.length : ℚ) := by exact_mod_cast hlen
    linarith
  unfold npVar npMean
  rw [List.length_map]
  field_simp

/-- C5: for at least two empirical values, `sample_ttest` feeds the t-test
the empirical mean and the unbiased (Bessel-corrected) sample variance
together with the queried predicted mean, predicted variance and the
assumed count, and passes the caller's `p_value_target` through unchanged
(the p-value does not depend on it: the target `t` is universally
quantified and appears only in the `p_value_threshold` field). -/
theorem sample_ttest_statistics (T : TTest) (longitude latitude : ℚ)
    (isotope_values : List ℚ)
    (means_isoscape variances_isoscape : AmazonGeoTiff)
    (n₀ : ℕ) (t : Option ℚ) (pm pv : ℚ)
    (hlen : 2 ≤ isotope_values.length)
    (hm : get_data_at_coords means_isoscape longitude latitude 0 = .ok pm)
    (hv : get_data_at_coords variances_isoscape longitude latitude 0 = .ok pv) :
    (sample_ttest T longitude latitude isotope_values means_isoscape
        variances_isoscape n₀ t =
      .ok { longitude := longitude
            latitude := latitude
            p_value := T pm pv n₀ (npMean isotope_values)
              ((isotope_values.map (fun x => (x - npMean isotope_values) ^ 2)).sum /
                ((isotope_values.length : ℚ) - 1))
              isotope_values.length
            p_value_threshold := t })
    ∧ (∀ t₁ t₂ : Option ℚ, ∃ ht₁ ht₂ : HypothesisTest,
        sample_ttest T longitude latitude isotope_values means_isoscape
          variances_isoscape n₀ t₁ = .ok ht₁ ∧
        sample_ttest T longitude latitude isotope_values means_isoscape
          variances_isoscape n₀ t₂ = .ok ht₂ ∧
        ht₁.p_value = ht₂.p_value ∧
        ht₁.p_value_threshold = t₁ ∧ ht₂.p_value_threshold = t₂) := by
  constructor
  · rw [sample_ttest_ok T longitude latitude isotope_values means_isoscape
      variances_isoscape n₀ t pm pv hlen hm hv,
      sample_ttest_variance_bessel isotope_values hlen]
  · intro t₁ t₂
    exact ⟨_, _,
      sample_ttest_ok T longitude latitude isotope_values means_isoscape
        variances_isoscape n₀ t₁ pm pv hlen hm hv,
      sample_ttest_ok T longitude latitude isotope_values means_isoscape
        variances_isoscape n₀ t₂ pm pv hlen hm hv,
      rfl, rfl, rfl⟩

/-- C4: `sample_ttest` fails with InsufficientSamples exactly when fewer
than 2 empirical values are given; with exactly two equal values it does
not fail: the computed empirical variance is 0 and the (deterministic)
p-value `T pm pv n₀ a 0 2` is returned. -/
theorem sample_ttest_error_handling (T : TTest) (longitude latitude : ℚ)
    (isotope_values : List ℚ)
    (means_isoscape variances_isoscape : AmazonGeoTiff)
    (n₀ : ℕ) (t : Option ℚ) :
    (sample_ttest T longitude latitude isotope_values means_isoscape
        variances_isoscape n₀ t = .error .insufficientSamples ↔
      isotope_values.length < 2)
    ∧ (∀ a pm pv : ℚ,
        get_data_at_coords means_isoscape longitude latitude 0 = .ok pm →
        get_data_at_coords variances_isoscape longitude latitude 0 = .ok pv →
        sample_ttest T longitude latitude [a, a] means_isoscape
            variances_isoscape n₀ t =
          .ok { longitude := longitude, latitude := latitude,
                p_value := T pm pv n₀ a 0 2, p_value_threshold := t }) := by
  refine ⟨sample_ttest_insufficient_iff T longitude latitude isotope_values
    means_isoscape variances_isoscape n₀ t, fun a pm pv hm hv => ?_⟩
  have hmean : npMean [a, a] = a := by
    unfold npMean
    simp only [List.sum_cons, List.sum_nil, List.length_cons, List.length_nil]
    push_cast
    field_simp
  have hvar : npVar [a, a] * (((2 : ℕ) : ℚ) / (((2 : ℕ) : ℚ) - 1)) = 0 := by
    unfold npVar
    rw [show List.map (fun x => (x - npMean [a, a]) ^ 2) [a, a] =
        [(a - npMean [a, a]) ^ 2, (a - npMean [a, a]) ^ 2] from rfl, hmean]
    simp [npMean]
  have h := sample_ttest_ok T longitude latitude [a, a] means_isoscape
    variances_isoscape n₀ t pm pv (by norm_num) hm hv
  have hlen2 : ([a, a] : List ℚ).length = 2 := rfl
  rw [h, hmean, hlen2, hvar]

/-! ## A concrete raster and t-test model for witnesses -/

/-- A 10×10 raster over `[0,10] × [0,10]`, constant value 3, fully valid. -/
def testTiff : AmazonGeoTiff where
  minx := 0
  maxy := 10
  pixel_size_x := 1
  pixel_size_y := -1
  raster_size_x := 10
  raster_size_y := 10
  image := fun _ _ _ => 3
  mask := fun _ _ _ => 1

/-- A constant t-test model returning p-value 1/2. -/
def T₀ : TTest := fun _ _ _ _ _ _ => some (1 / 2)

theorem testTiff_extent : get_extent testTiff = ⟨0, 10, 0, 10, 1, -1, 10, 10⟩ := by
  simp only [get_extent, testTiff, Bounds.mk.injEq]
  norm_num

theorem testTiff_coords : coords_to_indices (get_extent testTiff) 5 5 = .ok (5, 5) := by
  rw [testTiff_extent,
    coords_to_indices_in _ 5 5 (by norm_num) (by norm_num) (by norm_num) (by norm_num)]
  have hc : (⌈((5 : ℚ) - 0) / |(-1 : ℚ)|⌉ : ℤ) = 5 := by
    rw [show |(-1 : ℚ)| = 1 from by norm_num, Int.ceil_eq_iff]
    norm_num
  have hf : (⌊((5 : ℚ) - 0) / |(1 : ℚ)|⌋ : ℤ) = 5 := by
    rw [show |(1 : ℚ)| = 1 from by norm_num, Int.floor_eq_iff]
    norm_num
  rw [show (⟨0, 10, 0, 10, 1, -1, 10, 10⟩ : Bounds).raster_size_y = 10 from rfl,
    show (⟨0, 10, 0, 10, 1, -1, 10, 10⟩ : Bounds).miny = 0 from rfl,
    show (⟨0, 10, 0, 10, 1, -1, 10, 10⟩ : Bounds).minx = 0 from rfl,
    show (⟨0, 10, 0, 10, 1, -1, 10, 10⟩ : Bounds).pixel_size_y = -1 from rfl,
    show (⟨0, 10, 0, 10, 1, -1, 10, 10⟩ : Bounds).pixel_size_x = 1 from rfl,
    hc, hf]
  norm_num

theorem testTiff_query : get_data_at_coords testTiff 5 5 0 = .ok 3 := by
  unfold get_data_at_coords
  rw [testTiff_coords]
  dsimp only
  simp [masked_image, testTiff]

/-- Witness for C4 with two equal values `[2, 2]` on the concrete raster:
no failure, deterministic p-value at empirical variance 0. -/
theorem sample_ttest_error_handling_witness :
    sample_ttest T₀ 5 5 [2, 2] testTiff testTiff 7 (some (1 / 20)) =
      .ok { longitude := 5, latitude := 5, p_value := T₀ 3 3 7 2 0 2,
            p_value_threshold := some (1 / 20) } :=
  (sample_ttest_error_handling T₀ 5 5 [2, 2] testTiff testTiff 7
    (some (1 / 20))).2 2 3 3 testTiff_query testTiff_query

/-- Witness for C5 on `[2, 4]` at the concrete raster. -/
theorem sample_ttest_statistics_witness :
    sample_ttest T₀ 5 5 [2, 4] testTiff testTiff 7 none =
      .ok { longitude := 5, latitude := 5,
            p_value := T₀ 3 3 7 (npMean [2, 4])
              ((List.map (fun x => (x - npMean [2, 4]) ^ 2) [2, 4]).sum /
                ((List.length ([2, 4] : List ℚ) : ℚ) - 1))
              (List.length ([2, 4] : List ℚ)),
            p_value_threshold := none } :=
  (sample_ttest_statistics T₀ 5 5 [2, 4] testTiff testTiff 7 none 3 3
    (by norm_num) testTiff_query testTiff_query).1

/-! ## Claim theorems: raster queries and masking -/

/-- C7: given that the coordinate indexer resolves the cell `(r, c)`,
`get_data_at_coords` fails with MaskedValueError exactly when that cell is
invalid for the requested band (`month ≥ 0`: its mask entry is zero) or for
the annual aggregate (`month = -1`): the annual aggregate is the mean of
the cell's valid monthly values, a cell with zero valid monthly values is
invalid for it, and an annual query on such a cell fails with
MaskedValueError. -/
theorem get_data_at_coords_masked (g : AmazonGeoTiff) (x y : ℚ) (month : ℤ)
    (r c : ℤ)
    (hc : coords_to_indices (get_extent g) x y = .ok (r, c)) :
    (get_data_at_coords g x y month = .error .maskedValue ↔
      (if month = -1 then yearly_masked_image g r c
       else masked_image g r c month.toNat) = none)
    ∧ (0 ≤ month →
        (get_data_at_coords g x y month = .error .maskedValue ↔
          g.mask r c month.toNat = 0))
    ∧ (validBands g r c = [] →
        get_data_at_coords g x y (-1) = .error .maskedValue)
    ∧ (validBands g r c ≠ [] →
        get_data_at_coords g x y (-1) =
          .ok (((validBands g r c).map (fun b => g.image r c b)).sum /
            ((validBands g r c).length : ℚ))) := by
  have hbase : ∀ m : ℤ, get_data_at_coords g x y m =
      match (if m = -1 then yearly_masked_image g r c
             else masked_image g r c m.toNat) with
      | none => .error .maskedValue
      | some v => .ok v := by
    intro m
    unfold get_data_at_coords
    rw [hc]
  refine ⟨?_, ?_, ?_, ?_⟩
  · rw [hbase month]
    rcases hval : (if month = -1 then yearly_masked_image g r c
        else masked_image g r c month.toNat) with _ | v
    · simp
    · simp
  · intro hm
    rw [hbase month, if_neg (by omega)]
    unfold masked_image
    by_cases hmask : g.mask r c month.toNat = 0
    · rw [if_pos hmask]
      simp [hmask]
    · rw [if_neg hmask]
      simp [hmask]
  · intro hvb
    rw [hbase (-1), if_pos rfl]
    unfold yearly_masked_image
    rw [hvb]
    simp
  · intro hvb
    rw [hbase (-1), if_pos rfl]
    unfold yearly_masked_image
    simp [hvb]

/-- The fully masked variant of the concrete test raster. -/
def maskedTiff : AmazonGeoTiff where
  minx := 0
  maxy := 10
  pixel_size_x := 1
  pixel_size_y := -1
  raster_size_x := 10
  raster_size_y := 10
  image := fun _ _ _ => 3
  mask := fun _ _ _ => 0

theorem maskedTiff_coords : coords_to_indices (get_extent maskedTiff) 5 5 = .ok (5, 5) := by
  have h : get_extent maskedTiff = get_extent testTiff := rfl
  rw [h, testTiff_coords]

/-- Witness for C7: an annual query on a fully masked cell fails with
MaskedValueError. -/
theorem get_data_at_coords_masked_witness :
    get_data_at_coords maskedTiff 5 5 (-1) = .error .maskedValue :=
  (get_data_at_coords_masked maskedTiff 5 5 (-1) 5 5 maskedTiff_coords).2.2.1 rfl

/-! ## Lemmas on the grouped predictor -/

/-- The Boolean test that a prediction row belongs to a group key (the
source's output puts the key's longitude in `lat` and its latitude in
`long`). -/
def matchesKey (k : GroupKey) (r : PredRow) : Bool :=
  decide (r.code = k.code ∧ r.lat = k.long ∧ r.long = k.lat ∧ r.fraud = k.fraud)

/-- A row emitted by `predictGroup` for key `k` carries `k`'s fields. -/
theorem predictGroup_some_shape (T : TTest) (rows : List SampleRow)
    (isotope_column_names : List ℕ)
    (means_isoscapes variances_isoscapes : ℕ → AmazonGeoTiff)
    (sample_size_per_location : ℕ) (k : GroupKey) (r : PredRow)
    (h : predictGroup T rows isotope_column_names means_isoscapes
      variances_isoscapes sample_size_per_location k = .ok (some r)) :
    r.code = k.code ∧ r.lat = k.long ∧ r.long = k.lat ∧ r.fraud = k.fraud := by
  unfold predictGroup at h
  split at h
  · cases h
  · rcases hps : channelPvalues T k (groupRows rows k) isotope_column_names
        means_isoscapes variances_isoscapes sample_size_per_location with e | ps
    · rw [hps] at h
      cases h
    · rw [hps] at h
      dsimp only at h
      rcases hprod : listProd ps with _ | s
      · rw [hprod] at h
        cases h
      · rw [hprod] at h
        injection h with h'
        injection h' with h''
        rw [← h'']
        exact ⟨rfl, rfl, rfl, rfl⟩

/-- Two distinct keys never match the same emitted row. -/
theorem matchesKey_shape_eq (k k' : GroupKey) (r : PredRow)
    (hshape : r.code = k'.code ∧ r.lat = k'.long ∧ r.long = k'.lat ∧
      r.fraud = k'.fraud)
    (hmatch : matchesKey k r = true) : k' = k := by
  unfold matchesKey at hmatch
  rw [decide_eq_true_eq] at hmatch
  obtain ⟨h1, h2, h3, h4⟩ := hshape
  obtain ⟨h5, h6, h7, h8⟩ := hmatch
  rcases k with ⟨a, b, c, d⟩
  rcases k' with ⟨a', b', c', d'⟩
  simp_all

/-- The outcome of `predictGroup` on a retained group (at least two
rows). -/
theorem predictGroup_retained (T : TTest) (rows : List SampleRow)
    (isotope_column_names : List ℕ)
    (means_isoscapes variances_isoscapes : ℕ → AmazonGeoTiff)
    (sample_size_per_location : ℕ) (k : GroupKey) (o : Option PredRow)
    (h : predictGroup T rows isotope_column_names means_isoscapes
      variances_isoscapes sample_size_per_location k = .ok o)
    (hsize : 2 ≤ (groupRows rows k).length) :
    ∃ ps, channelPvalues T k (groupRows rows k) isotope_column_names
        means_isoscapes variances_isoscapes sample_size_per_location = .ok ps ∧
      (listProd ps = none → o = none) ∧
      (∀ s, listProd ps = some s →
        o = some { code := k.code, lat := k.long, long := k.lat,
                   fraud := k.fraud, predicted_fraud := s }) := by
  unfold predictGroup at h
  rw [if_neg (by omega)] at h
  rcases hps : channelPvalues T k (groupRows rows k) isotope_column_names
      means_isoscapes variances_isoscapes sample_size_per_location with e | ps
  · rw [hps] at h
    cases h
  · rw [hps] at h
    dsimp only at h
    refine ⟨ps, rfl, ?_, ?_⟩
    · intro hprod
      rw [hprod] at h
      injection h with h'
      exact h'.symm
    · intro s hprod
      rw [hprod] at h
      injection h with h'
      exact h'.symm

/-- Groups absent from the visited key list contribute no matching row. -/
theorem predictLoop_not_mem (T : TTest) (rows : List SampleRow)
    (isotope_column_names : List ℕ)
    (means_isoscapes variances_isoscapes : ℕ → AmazonGeoTiff)
    (sample_size_per_location : ℕ) (k : GroupKey) :
    ∀ ks out, predictLoop T rows isotope_column_names means_isoscapes
        variances_isoscapes sample_size_per_location ks = .ok out →
      k ∉ ks → out.filter (matchesKey k) = [] := by
  intro ks
  induction ks with
  | nil =>
    intro out h _
    unfold predictLoop at h
    injection h with h'
    rw [← h']
    rfl
  | cons k' ks ih =>
    intro out h hk
    unfold predictLoop at h
    rcases hg : predictGroup T rows isotope_column_names means_isoscapes
        variances_isoscapes sample_size_per_location k' with e | o
    · rw [hg] at h
      cases h
    · rw [hg] at h
      dsimp only at h
      rcases hl : predictLoop T rows isotope_column_names means_isoscapes
          variances_isoscapes sample_size_per_location ks with e | rest
      · rw [hl] at h
        cases h
      · rw [hl] at h
        injection h with h'
        rw [← h', List.filter_append,
          ih rest hl (fun hmem => hk (List.mem_cons_of_mem _ hmem)),
          List.append_nil]
        rcases o with _ | r
        · rfl
        · have hshape := predictGroup_some_shape T rows isotope_column_names
            means_isoscapes variances_isoscapes sample_size_per_location k' r hg
          have hne : matchesKey k r = false := by
            by_contra hmm
            rw [Bool.not_eq_false] at hmm
            exact hk ((matchesKey_shape_eq k k' r hshape hmm) ▸ List.mem_cons_self k' ks)
          simp [Option.toList, hne]

/-- The filtered output of the group loop at a visited key with at least
two rows: the singleton emitted row on a finite composite score, nothing on
a NaN composite score. -/
theorem predictLoop_mem (T : TTest) (rows : List SampleRow)
    (isotope_column_names : List ℕ)
    (means_isoscapes variances_isoscapes : ℕ → AmazonGeoTiff)
    (sample_size_per_location : ℕ) (k : GroupKey) :
    ∀ ks out, predictLoop T rows isotope_column_names means_isoscapes
        variances_isoscapes sample_size_per_location ks = .ok out →
      k ∈ ks → ks.Nodup → 2 ≤ (groupRows rows k).length →
      ∃ ps, channelPvalues T k (groupRows rows k) isotope_column_names
          means_isoscapes variances_isoscapes sample_size_per_location = .ok ps ∧
        (∀ s, listProd ps = some s →
          out.filter (matchesKey k) =
            [{ code := k.code, lat := k.long, long := k.lat,
               fraud := k.fraud, predicted_fraud := s }]) ∧
        (listProd ps = none → out.filter (matchesKey k) = []) := by
  intro ks
  induction ks with
  | nil =>
    intro out _ hmem
    cases hmem
  | cons k' ks ih =>
    intro out h hmem hnodup hsize
    unfold predictLoop at h
    rcases hg : predictGroup T rows isotope_column_names means_isoscapes
        variances_isoscapes sample_size_per_location k' with e | o
    · rw [hg] at h
      cases h
    · rw [hg] at h
      dsimp only at h
      rcases hl : predictLoop T rows isotope_column_names means_isoscapes
          variances_isoscapes sample_size_per_location ks with e | rest
      · rw [hl] at h
        cases h
      · rw [hl] at h
        injection h with h'
        rw [List.nodup_cons] at hnodup
        rcases List.mem_cons.mp hmem with hkk | hmem'
        · -- the key is the head: the tail contributes nothing
          subst hkk
          obtain ⟨ps, hps, hnone, hsome⟩ := predictGroup_retained T rows
            isotope_column_names means_isoscapes variances_isoscapes
            sample_size_per_location k o hg hsize
          refine ⟨ps, hps, ?_, ?_⟩
          · intro s hprod
            rw [← h', List.filter_append,
              predictLoop_not_mem T rows isotope_column_names means_isoscapes
                variances_isoscapes sample_size_per_location k ks rest hl hnodup.1,
              List.append_nil, hsome s hprod]
            simp [matchesKey]
          · intro hprod
            rw [← h', List.filter_append,
              predictLoop_not_mem T rows isotope_column_names means_isoscapes
                variances_isoscapes sample_size_per_location k ks rest hl hnodup.1,
              List.append_nil, hnone hprod]
            rfl
        · -- the key is in the tail: the head contributes nothing
          have hneq : k ≠ k' := fun hkk => hnodup.1 (hkk ▸ hmem')
          obtain ⟨ps, hps, hsome, hnone⟩ := ih rest hl hmem' hnodup.2 hsize
          have hhead : (Option.toList o).filter (matchesKey k) = [] := by
            rcases o with _ | r
            · rfl
            · have hshape := predictGroup_some_shape T rows isotope_column_names
                means_isoscapes variances_isoscapes sample_size_per_location k' r hg
              have hne : matchesKey k r = false := by
                by_contra hmm
                rw [Bool.not_eq_false] at hmm
                exact hneq (matchesKey_shape_eq k k' r hshape hmm).symm
              simp [Option.toList, hne]
          refine ⟨ps, hps, ?_, ?_⟩
          · intro s hprod
            rw [← h', List.filter_append, hhead, List.nil_append, hsome s hprod]
          · intro hprod
            rw [← h', List.filter_append, hhead, List.nil_append, hnone hprod]

/-- C2: for every retained group (a visited group key with at least two
rows), a successful `get_predictions` run emits exactly one output row for
that key — carrying the key's sample id, its longitude and latitude (the
source stores the longitude in the output's `lat` column and the latitude
in the output's `long` column), its true fraud label, and a composite
score equal to the product of the per-channel hypothesis-test p-values —
and emits no row for the key when its composite score is NaN
(non-finite). -/
theorem get_predictions_retained_groups (T : TTest) (rows : List SampleRow)
    (isotope_column_names : List ℕ)
    (means_isoscapes variances_isoscapes : ℕ → AmazonGeoTiff)
    (sample_size_per_location : ℕ) (out : List PredRow) (k : GroupKey)
    (hout : get_predictions T rows isotope_column_names means_isoscapes
      variances_isoscapes sample_size_per_location = .ok out)
    (hk : k ∈ groupKeys rows)
    (hsize : 2 ≤ (groupRows rows k).length) :
    ∃ ps, channelPvalues T k (groupRows rows k) isotope_column_names
        means_isoscapes variances_isoscapes sample_size_per_location = .ok ps ∧
      (∀ s, listProd ps = some s →
        out.filter (matchesKey k) =
          [{ code := k.code, lat := k.long, long := k.lat,
             fraud := k.fraud, predicted_fraud := s }]) ∧
      (listProd ps = none → out.filter (matchesKey k) = []) :=
  predictLoop_mem T rows isotope_column_names means_isoscapes
    variances_isoscapes sample_size_per_location k (groupKeys rows) out hout hk
    (List.nodup_dedup _) hsize

/-! ## A concrete dataset for the grouped-predictor witnesses -/

/-- Two repeated measurements of one sample at `(5, 5)`, fraud label 1. -/
def row1 : SampleRow := ⟨0, 5, 5, 1, fun _ => 2⟩

def row2 : SampleRow := ⟨0, 5, 5, 1, fun _ => 4⟩

/-- The shared group key of `row1` and `row2`. -/
def k₁ : GroupKey := ⟨0, 5, 5, 1⟩

theorem test_groupKeys : groupKeys [row1, row2] = [k₁] := by decide

theorem test_groupRows : groupRows [row1, row2] k₁ = [row1, row2] := rfl

theorem test_sample_ttest :
    sample_ttest T₀ 5 5 [2, 4] testTiff testTiff 7 none =
      .ok ⟨5, 5, some (1 / 2), none⟩ := by
  rw [sample_ttest_ok T₀ 5 5 [2, 4] testTiff testTiff 7 none 3 3 (by norm_num)
    testTiff_query testTiff_query]
  rfl

theorem test_channelPvalues :
    channelPvalues T₀ k₁ [row1, row2] [0] (fun _ => testTiff)
      (fun _ => testTiff) 7 = .ok [some (1 / 2)] := by
  unfold channelPvalues
  rw [show ([0] : List ℕ).enum = [(0, 0)] from rfl]
  unfold channelPvaluesAux
  rw [show ([row1, row2].map (fun r => r.isotopes (0, 0).2)) = [2, 4] from rfl,
    show k₁.long = 5 from rfl, show k₁.lat = 5 from rfl,
    test_sample_ttest]
  rfl

theorem test_predictGroup :
    predictGroup T₀ [row1, row2] [0] (fun _ => testTiff) (fun _ => testTiff)
      7 k₁ = .ok (some ⟨0, 5, 5, 1, 1 / 2⟩) := by
  unfold predictGroup
  rw [if_neg (by rw [test_groupRows]; norm_num), test_groupRows,
    test_channelPvalues]
  dsimp only
  rw [show listProd [some (1 / 2)] = some ((1 : ℚ) * (1 / 2)) from rfl]
  norm_num
  exact ⟨rfl, rfl, rfl, rfl⟩

theorem test_get_predictions :
    get_predictions T₀ [row1, row2] [0] (fun _ => testTiff)
      (fun _ => testTiff) 7 = .ok [⟨0, 5, 5, 1, 1 / 2⟩] := by
  unfold get_predictions
  rw [test_groupKeys]
  unfold predictLoop
  rw [test_predictGroup]
  rfl

/-- Witness for C2: on the two-row dataset the one retained group emits
exactly one row with its key's fields and the composite score 1/2. -/
theorem get_predictions_retained_groups_witness :
    ∃ ps, channelPvalues T₀ k₁ (groupRows [row1, row2] k₁) [0]
        (fun _ => testTiff) (fun _ => testTiff) 7 = .ok ps ∧
      (∀ s, listProd ps = some s →
        ([⟨0, 5, 5, 1, 1 / 2⟩] : List PredRow).filter (matchesKey k₁) =
          [{ code := k₁.code, lat := k₁.long, long := k₁.lat,
             fraud := k₁.fraud, predicted_fraud := s }]) ∧
      (listProd ps = none →
        ([⟨0, 5, 5, 1, 1 / 2⟩] : List PredRow).filter (matchesKey k₁) = []) :=
  get_predictions_retained_groups T₀ [row1, row2] [0] (fun _ => testTiff)
    (fun _ => testTiff) 7 [⟨0, 5, 5, 1, 1 / 2⟩] k₁ test_get_predictions
    (by rw [test_groupKeys]; exact List.mem_singleton.mpr rfl)
    (by rw [test_groupRows]; norm_num)

/-! ## Claim theorems: skip policy and metrics -/

/-- When every visited group is skipped the loop succeeds with no rows. -/
theorem predictLoop_all_skipped (T : TTest) (rows : List SampleRow)
    (isotope_column_names : List ℕ)
    (means_isoscapes variances_isoscapes : ℕ → AmazonGeoTiff)
    (sample_size_per_location : ℕ) :
    ∀ ks : List GroupKey, (∀ k ∈ ks, (groupRows rows k).length ≤ 1) →
      predictLoop T rows isotope_column_names means_isoscapes
        variances_isoscapes sample_size_per_location ks = .ok [] := by
  intro ks
  induction ks with
  | nil =>
    intro _
    rfl
  | cons k ks ih =>
    intro h
    have hk : predictGroup T rows isotope_column_names means_isoscapes
        variances_isoscapes sample_size_per_location k = .ok none := by
      unfold predictGroup
      rw [if_pos (h k (List.mem_cons_self k ks))]
    unfold predictLoop
    rw [hk, ih (fun k' hk' => h k' (List.mem_cons_of_mem _ hk'))]
    rfl

/-- C8: `predictGroup` silently skips every group with fewer than 2 rows —
it returns success with no row, never an error — and consequently, on a
dataset in which every group has exactly one row, `get_predictions`
succeeds with the empty result set. -/
theorem get_predictions_skip_policy (T : TTest) (rows : List SampleRow)
    (isotope_column_names : List ℕ)
    (means_isoscapes variances_isoscapes : ℕ → AmazonGeoTiff)
    (sample_size_per_location : ℕ) :
    (∀ k, (groupRows rows k).length ≤ 1 →
      predictGroup T rows isotope_column_names means_isoscapes
        variances_isoscapes sample_size_per_location k = .ok none)
    ∧ ((∀ k ∈ groupKeys rows, (groupRows rows k).length = 1) →
        get_predictions T rows isotope_column_names means_isoscapes
          variances_isoscapes sample_size_per_location = .ok []) := by
  constructor
  · intro k hk
    unfold predictGroup
    rw [if_pos hk]
  · intro hall
    unfold get_predictions
    exact predictLoop_all_skipped T rows isotope_column_names means_isoscapes
      variances_isoscapes sample_size_per_location (groupKeys rows)
      (fun k hk => le_of_eq (hall k hk))

/-- A second sample with a different sample id, so that both groups are
singletons. -/
def row3 : SampleRow := ⟨1, 5, 5, 1, fun _ => 4⟩

/-- Witness for C8: a dataset of two singleton groups yields the empty
result set. -/
theorem get_predictions_skip_policy_witness :
    get_predictions T₀ [row1, row3] [0] (fun _ => testTiff)
      (fun _ => testTiff) 7 = .ok [] :=
  (get_predictions_skip_policy T₀ [row1, row3] [0] (fun _ => testTiff)
    (fun _ => testTiff) 7).2 (by decide)

/-- C3: `fraud_metrics` computes accuracy as the fraction of prediction
rows whose true fraud label is exactly equal to their composite score;
consequently, whenever all true labels are in `{0, 1}` and every composite
score lies strictly between 0 and 1, the reported accuracy is 0. -/
theorem fraud_metrics_accuracy (curve : PRCurve) (T : TTest)
    (rows : List SampleRow) (isotope_column_names : List ℕ)
    (means_isoscapes variances_isoscapes : ℕ → AmazonGeoTiff)
    (sample_size_per_location : ℕ) (p_value_target : ℚ)
    (predictions : List PredRow) (fm : FraudMetrics)
    (hp : get_predictions T rows isotope_column_names means_isoscapes
      variances_isoscapes sample_size_per_location = .ok predictions)
    (hfm : fraud_metrics curve T rows isotope_column_names means_isoscapes
      variances_isoscapes sample_size_per_location p_value_target = .ok fm) :
    fm.accuracy =
      ((predictions.filter (fun r => decide (r.fraud = r.predicted_fraud))).length : ℚ) /
        (predictions.length : ℚ)
    ∧ (predictions ≠ [] →
        (∀ r ∈ predictions, (r.fraud = 0 ∨ r.fraud = 1) ∧
          0 < r.predicted_fraud ∧ r.predicted_fraud < 1) →
        fm.accuracy = 0) := by
  unfold fraud_metrics at hfm
  rw [hp] at hfm
  dsimp only at hfm
  injection hfm with hfm'
  constructor
  · rw [← hfm']
    rfl
  · intro _ hall
    have hfilter : predictions.filter
        (fun r => decide (r.fraud = r.predicted_fraud)) = [] := by
      rw [List.filter_eq_nil_iff]
      intro r hr
      obtain ⟨hlabel, hlo, hhi⟩ := hall r hr
      rw [decide_eq_true_eq]
      rcases hlabel with h0 | h1
      · rw [h0]
        linarith
      · rw [h1]
        linarith
    rw [← hfm']
    show fraud_accuracy predictions = 0
    unfold fraud_accuracy
    rw [hfilter]
    simp

/-- A constant precision-recall-curve model. -/
def curve₀ : PRCurve := fun _ _ => (0, 0)

/-- Witness for C3: on the two-row dataset with true label 1 and composite
score 1/2, the reported accuracy is 0. -/
theorem fraud_metrics_accuracy_witness :
    ∃ fm, fraud_metrics curve₀ T₀ [row1, row2] [0] (fun _ => testTiff)
        (fun _ => testTiff) 7 (1 / 20) = .ok fm ∧ fm.accuracy = 0 := by
  have hfm : fraud_metrics curve₀ T₀ [row1, row2] [0] (fun _ => testTiff)
      (fun _ => testTiff) 7 (1 / 20) =
      .ok { isotope_column_names := [0],
            accuracy := fraud_accuracy [⟨0, 5, 5, 1, 1 / 2⟩],
            precision := (curve₀ (([⟨0, 5, 5, 1, 1 / 2⟩] : List PredRow).map
              (fun r => (r.fraud, r.predicted_fraud))) (1 / 20)).1,
            «recall» := (curve₀ (([⟨0, 5, 5, 1, 1 / 2⟩] : List PredRow).map
              (fun r => (r.fraud, r.predicted_fraud))) (1 / 20)).2 } := by
    unfold fraud_metrics
    rw [test_get_predictions]
  refine ⟨_, hfm, ?_⟩
  exact (fraud_metrics_accuracy curve₀ T₀ [row1, row2] [0] (fun _ => testTiff)
    (fun _ => testTiff) 7 (1 / 20) [⟨0, 5, 5, 1, 1 / 2⟩] _
    test_get_predictions hfm).2 (by simp)
    (by
      intro r hr
      rw [List.mem_singleton] at hr
      subst hr
      refine ⟨Or.inr rfl, by norm_num, by norm_num⟩)

end DDF
